import Mathlib

/-!
# Verification of the essay grading / plagiarism detection core

Shallow embedding of `python_ai_backend/enhanced_services/ai_grading.py` and
`python_ai_backend/enhanced_services/plagiarism.py`.

Texts are modelled as `List Char`.  Pure string manipulations of the source
(`re.findall(r"\w+", ...)`, `re.split(r"[.!?]+", ...)`, `str.split("\n\n")`,
`str.strip()`, `str.split()`, `str.lower()`) are implemented directly.
Results of external libraries (`textstat.flesch_reading_ease`,
`difflib.SequenceMatcher.ratio`) and of the handful of opaque regular
expressions with back-references / alternation groups
(`\b(\w+)\s+\1\b`, the passive-voice pattern, the reasoning patterns, the
citation pattern, the formal-indicator patterns) are passed in as explicit
oracle inputs; every theorem either quantifies over them or instantiates
them with values traceable by hand on the concrete input.

Numbers are modelled as exact rationals.  `round(x, n)` of Python is
modelled as `round (x * 10^n) / 10^n`; Python rounds floats half-to-even,
which differs only at exact half-ulps, none of which occur in the
statements below.
-/

/- Core marks rational arithmetic `@[irreducible]`, which blocks `decide`
on concrete inputs; restore semireducibility so witnesses and
counterexamples can be checked by evaluation. -/
set_option allowUnsafeReducibility true in
attribute [semireducible] Rat.mul Rat.add Rat.sub Rat.inv Rat.div Rat.ofScientific

namespace CheckMate

abbrev Text := List Char

/-- Python whitespace as used by `str.strip()` / `str.split()`. -/
def isSpace (c : Char) : Bool :=
  c == ' ' || c == '\t' || c == '\n' || c == '\r' || c == '\x0b' || c == '\x0c'

/-- A character matched by the regex class `\w`. -/
def isWordChar (c : Char) : Bool := c.isAlphanum || c == '_'

/-- Sentence terminator characters, the regex class `[.!?]`. -/
def isSentTerm (c : Char) : Bool := c == '.' || c == '!' || c == '?'

/-- `str.lower()`. -/
def lowerText (t : Text) : Text := t.map Char.toLower

/-- `str.strip()`: drop leading and trailing whitespace. -/
def pyStrip (t : Text) : Text :=
  ((t.dropWhile isSpace).reverse.dropWhile isSpace).reverse

/-- Maximal runs of characters satisfying `p` (helper for `\w+` matching
and whitespace splitting).  `acc` holds the current run, reversed. -/
def runsAux (p : Char → Bool) : Text → Text → List Text
  | [], [] => []
  | [], acc => [acc.reverse]
  | c :: cs, acc =>
    if p c then runsAux p cs (c :: acc)
    else if acc.isEmpty then runsAux p cs []
    else acc.reverse :: runsAux p cs []

/-- `re.findall(r"\w+", t)` (and `\b\w+\b`, which matches the same runs). -/
def findWords (t : Text) : List Text := runsAux isWordChar t []

/-- `str.split()` with no separator: runs of non-whitespace. -/
def pySplit (t : Text) : List Text := runsAux (fun c => !isSpace c) t []

/-- `count_words` of `ai_grading.py`: `len(re.findall(r"\b\w+\b", text))`. -/
def count_words (t : Text) : ℕ := (findWords t).length

/-- `re.split(r"[.!?]+", t)`.  The state is `some acc` while accumulating a
piece and `none` while inside a separator run (a maximal run of `[.!?]`
is a single separator). -/
def sentsAux : Text → Option Text → List Text
  | [], some acc => [acc.reverse]
  | [], none => [[]]
  | c :: cs, some acc =>
    if isSentTerm c then acc.reverse :: sentsAux cs none
    else sentsAux cs (some (c :: acc))
  | c :: cs, none =>
    if isSentTerm c then sentsAux cs none
    else sentsAux cs (some [c])

/-- `re.split(r"[.!?]+", t)`. -/
def splitSents (t : Text) : List Text := sentsAux t (some [])

/-- `str.split("\n\n")`: split on the literal two-character separator,
scanning left to right. -/
def splitParas : Text → List Text
  | [] => [[]]
  | '\n' :: '\n' :: rest => [] :: splitParas rest
  | c :: rest =>
    match splitParas rest with
    | [] => [[c]]
    | p :: ps => (c :: p) :: ps

/-- `count_sentences` of `ai_grading.py`: split on `[.!?]+`, keep pieces
that are non-blank and have more than 2 whitespace-separated tokens. -/
def count_sentences (t : Text) : ℕ :=
  ((splitSents t).filter (fun s => !(pyStrip s).isEmpty && (pySplit s).length > 2)).length

/-- `round(x, d)` of Python on exact rationals. -/
def pyRound (d : ℕ) (q : ℚ) : ℚ := (round (q * 10 ^ d) : ℚ) / 10 ^ d

/-! ## ai_grading.py: per-criterion scorers -/

/-- The fixed `ACADEMIC_VOCABULARY` list of `ai_grading.py`. -/
def ACADEMIC_VOCABULARY : List Text :=
  ["analyze", "evaluate", "demonstrate", "illustrate", "synthesize",
   "interpret", "examine", "investigate", "emphasize", "significant"].map String.toList

/-- Result of `analyze_vocabulary_complexity`.  The source returns a dict;
in the empty-text branch the dict lacks the `long_words_count` key, which we
render as `0` (no claim touches that field). -/
structure VocabAnalysis where
  complexity_score : ℚ
  academic_word_count : ℕ
  avg_word_length : ℚ
  unique_words_ratio : ℚ
  long_words_count : ℕ
deriving DecidableEq

/-- `analyze_vocabulary_complexity` of `ai_grading.py`. -/
def analyze_vocabulary_complexity (t : Text) : VocabAnalysis :=
  let words := findWords (lowerText t)
  if words.isEmpty then ⟨0, 0, 0, 0, 0⟩
  else
    let n : ℚ := words.length
    let avg_word_length := ((words.map List.length).sum : ℚ) / n
    let academic_word_count := (words.filter (fun w => ACADEMIC_VOCABULARY.contains w)).length
    let unique_ratio := ((words.dedup.length : ℚ)) / n
    let long_words := (words.filter (fun w => w.length > 6)).length
    let complexity_score :=
      ((long_words : ℚ) / n * (4/10) +
       unique_ratio * (4/10) +
       (academic_word_count : ℚ) / (max words.length 1 : ℕ) * (2/10)) * 100
    ⟨pyRound 2 complexity_score, academic_word_count, pyRound 2 avg_word_length,
     pyRound 2 unique_ratio, long_words⟩

/-- The length-score branch of `calculate_content_score` (lines 65–70).
Returns `none` when Python would raise `ZeroDivisionError`, which happens
exactly when `min_words = 0` (then the first two branch guards are false and
the `else` branch divides by `min_words * 2 = 0`). -/
def length_score (word_count min_words : ℕ) : Option ℚ :=
  if (word_count : ℚ) < (min_words : ℚ) then
    some ((word_count : ℚ) / (min_words : ℚ) * (5/10))
  else if (word_count : ℚ) < (min_words : ℚ) * (15/10) then
    some (5/10 + ((word_count : ℚ) - (min_words : ℚ)) / ((min_words : ℚ) * (5/10)) * (3/10))
  else if min_words = 0 then none
  else
    some (8/10 + min (((word_count : ℚ) - (min_words : ℚ) * (15/10)) / ((min_words : ℚ) * 2)) (2/10))

/-- The readability component of `calculate_content_score` (lines 75–79):
`flesch` is the outcome of `textstat.flesch_reading_ease(text)`
(`none` = the call raised); on success the value is clamped into `[0,1]`,
on failure the source assigns the constant `0.5`. -/
def readability_score (flesch : Option ℚ) : ℚ :=
  match flesch with
  | some r => min (max ((r - 30) / 70) 0) 1
  | none => 5/10

/-- The fields of the dict returned by `calculate_content_score` that later
code reads (`feedback` composition is elided). -/
structure ContentResult where
  score : ℚ
  word_count : ℕ
  readability : ℚ
deriving DecidableEq

/-- `calculate_content_score` of `ai_grading.py`.  `flesch` is the
`flesch_reading_ease` oracle; `none` when `min_words = 0` makes the
length-score computation raise. -/
def calculate_content_score (t : Text) (min_words : ℕ) (flesch : Option ℚ) :
    Option ContentResult :=
  let word_count := count_words t
  match length_score word_count min_words with
  | none => none
  | some ls =>
    let vocab := analyze_vocabulary_complexity t
    let vocab_score := vocab.complexity_score / 100
    let rs := readability_score flesch
    some ⟨(ls * (4/10) + vocab_score * (4/10) + rs * (2/10)) * 100, word_count, rs⟩

/-- Result of `calculate_grammar_score` (`feedback` elided). -/
structure GrammarResult where
  score : ℚ
deriving DecidableEq

/-- The value of the local `score` of `calculate_grammar_score` just before
the final `score = max(score, 0)` clamp.  `repeated_words` and
`passive_indicators` are the counts produced by
`re.findall(r"\b(\w+)\s+\1\b", ...)` and the passive-voice pattern,
passed as oracle inputs. -/
def grammar_raw_score (t : Text) (repeated_words passive_indicators : ℕ) : ℚ :=
  let sentences := ((splitSents t).map pyStrip).filter (fun s => !s.isEmpty)
  let sentence_count := sentences.length
  let has_proper_punctuation :=
    match (pyStrip t).getLast? with
    | some c => isSentTerm c
    | none => false
  let long_sentences := (sentences.filter (fun s => (pySplit s).length > 30)).length
  let fragments := (sentences.filter (fun s => (pySplit s).length < 5)).length
  let proper_capitalization :=
    ((sentences.filter (fun s =>
        match s with
        | c :: _ => c.isUpper
        | [] => false)).length : ℚ) / (max sentence_count 1 : ℕ)
  let d_punct : ℚ := if !has_proper_punctuation then 10 else 0
  let d_repeat : ℚ := if repeated_words > 0 then min ((repeated_words : ℚ) * 5) 20 else 0
  let d_few : ℚ := if sentence_count < 3 then 15 else 0
  let d_passive : ℚ := if (passive_indicators : ℚ) > (sentence_count : ℚ) * (3/10) then 10 else 0
  let d_long : ℚ := if long_sentences > 2 then 5 else 0
  let d_frag : ℚ := if fragments > 1 then 10 else 0
  let d_cap : ℚ := if proper_capitalization < 9/10 then 5 else 0
  90 - d_punct - d_repeat - d_few - d_passive - d_long - d_frag - d_cap

/-- `calculate_grammar_score` of `ai_grading.py`: the raw score clamped by
`score = max(score, 0)`. -/
def calculate_grammar_score (t : Text) (repeated_words passive_indicators : ℕ) :
    GrammarResult :=
  ⟨max (grammar_raw_score t repeated_words passive_indicators) 0⟩

/-- Return value of `calculate_structure_score`.  The source returns dicts
with two different key sets: the empty-input branch (lines 165–173) carries
counts and flags but *no* `score` key; the normal branch carries `score`
(and `feedback`, elided here). -/
inductive StructureResult where
  | empty (paragraph_count : ℕ) (avg_paragraph_length avg_sentence_length : ℚ)
      (has_introduction has_conclusion : Bool) (structure_balance : ℚ)
  | scored (score : ℚ)
deriving DecidableEq

/-- Reading `result["score"]`: `none` models the `KeyError` raised on the
empty-input dict. -/
def StructureResult.score? : StructureResult → Option ℚ
  | .empty _ _ _ _ _ _ => none
  | .scored s => some s

/-- `calculate_structure_score` of `ai_grading.py`. -/
def calculate_structure_score (t : Text) : StructureResult :=
  let paragraphs := (splitParas t).filter (fun p => !(pyStrip p).isEmpty)
  let sentences := ((splitSents t).map pyStrip).filter (fun s => !s.isEmpty)
  if paragraphs.isEmpty || sentences.isEmpty then
    .empty 0 0 0 false false 0
  else
    let para_lengths := paragraphs.map (fun p => (pySplit p).length)
    let has_introduction :=
      decide (paragraphs.length > 0) && decide ((pySplit (paragraphs.headD [])).length > 20)
    let has_conclusion :=
      decide (paragraphs.length > 1) && decide ((pySplit (paragraphs.getLastD [])).length > 15)
    let structure_balance : ℚ :=
      if paragraphs.length > 1 then
        let avg_len : ℚ := ((para_lengths.sum : ℚ)) / (para_lengths.length : ℚ)
        let variance : ℚ :=
          ((para_lengths.map (fun x => ((x : ℚ) - avg_len) ^ 2)).sum) / (para_lengths.length : ℚ)
        max 0 (100 - variance)
      else 50
    let avg_sentence_length : ℚ := (count_words t : ℚ) / (sentences.length : ℚ)
    let b_intro : ℚ := if has_introduction then 15 else 0
    let b_concl : ℚ := if has_conclusion then 15 else 0
    let b_paras : ℚ :=
      if paragraphs.length ≥ 5 then 15
      else if paragraphs.length ≥ 3 then 10
      else if paragraphs.length ≥ 2 then 5
      else 0
    let b_sent : ℚ :=
      if avg_sentence_length ≥ 15 ∧ avg_sentence_length ≤ 25 then 10
      else if avg_sentence_length ≥ 12 ∧ avg_sentence_length ≤ 30 then 5
      else 0
    let b_bal : ℚ := if structure_balance > 70 then 5 else 0
    .scored (min (60 + b_intro + b_concl + b_paras + b_sent + b_bal) 100)

/-- Result of `analyze_argument_quality`. -/
structure ArgumentResult where
  reasoning_indicators : ℕ
  citations : ℕ
  questions : ℕ
  argument_score : ℚ
deriving DecidableEq

/-- `analyze_argument_quality` of `ai_grading.py`.  `reasoning_indicators`
(hits of the four reasoning-pattern regexes) and `citations` (hits of the
citation regex) are oracle inputs; `questions` (`re.findall(r"\?", text)`)
is counted directly. -/
def analyze_argument_quality (t : Text) (reasoning_indicators citations : ℕ) :
    ArgumentResult :=
  let questions := (t.filter (fun c => c == '?')).length
  let sentence_count := count_sentences t
  let reasoning_density := (reasoning_indicators : ℚ) / (max sentence_count 1 : ℕ)
  let score := min (reasoning_density * 100 + (citations : ℚ) * 10 + (questions : ℚ) * 5) 100
  ⟨reasoning_indicators, citations, questions, pyRound 2 score⟩

/-! ## ai_grading.py: criterion dispatch and rubric aggregation -/

/-- Substring containment, Python's `needle in hay` on strings. -/
def containsSub (hay needle : Text) : Bool :=
  hay.tails.any (fun s => needle.isPrefixOf s)

/-- The four scoring strategies of `grade_essay_with_database`.
The generic `else` branch of the source calls `calculate_content_score`,
i.e. it selects `content`. -/
inductive ScorerKind where
  | content | grammar | struct | argument
deriving DecidableEq

/-- The `if/elif` dispatch chain of `grade_essay_with_database`
(lines 285–310), operating on the lowercased criterion name. -/
def selectScorer (name : Text) : ScorerKind :=
  let l := lowerText name
  if containsSub l "content".toList || containsSub l "thesis".toList then .content
  else if containsSub l "grammar".toList || containsSub l "style".toList ||
      containsSub l "language".toList then .grammar
  else if containsSub l "structure".toList || containsSub l "organization".toList then .struct
  else if containsSub l "argument".toList || containsSub l "analysis".toList ||
      containsSub l "critical".toList then .argument
  else .content

/-- A rubric criterion configuration with the `.get` defaults
(`max_points` default 20, `min_words` default 100) already resolved. -/
structure CriterionConfig where
  max_points : ℚ
  min_words : ℕ
deriving DecidableEq

/-- The oracle inputs of one grading call: outcomes of the external
`textstat` calls and of the opaque regex counts on the fixed `content`.
`flesch` feeds `calculate_content_score`; `stats` is the separate
`(flesch_reading_ease, flesch_kincaid_grade)` pair of lines 339–344
(`none` = that `try` block failed and the 50 / 8 fallbacks apply). -/
structure GradeOracles where
  flesch : Option ℚ
  stats : Option (ℚ × ℚ)
  repeated_words : ℕ
  passive_indicators : ℕ
  reasoning_indicators : ℕ
  citations : ℕ
deriving DecidableEq

/-- One iteration of the criterion loop of `grade_essay_with_database`
(lines 280–332): the criterion's contributed score, or `none` when the
body raised and the `except ... continue` skipped the criterion.  Raises
modelled: `ZeroDivisionError` in `length_score` when `min_words = 0`,
`KeyError` on the score-less empty-structure dict, and `ZeroDivisionError`
in the `percentage` computation when `max_points = 0`. -/
def evalCriterion (content : Text) (orc : GradeOracles) (name : Text)
    (cfg : CriterionConfig) : Option ℚ :=
  let raw? : Option ℚ :=
    match selectScorer name with
    | .content => (calculate_content_score content cfg.min_words orc.flesch).map (·.score)
    | .grammar =>
        some (calculate_grammar_score content orc.repeated_words orc.passive_indicators).score
    | .struct => (calculate_structure_score content).score?
    | .argument =>
        some (analyze_argument_quality content orc.reasoning_indicators orc.citations).argument_score
  match raw? with
  | none => none
  | some raw =>
    if cfg.max_points = 0 then none
    else some (raw / 100 * cfg.max_points)

/-- Entry of the `criteria_scores` dict. -/
structure CriterionScore where
  score : ℚ
  max_score : ℚ
  percentage : ℚ
deriving DecidableEq

/-- `confidence` of `grade_essay_with_database` (line 388), before the
final `round(·, 4)`. -/
def grading_confidence (word_count sentence_count : ℕ) : ℚ :=
  min (70/100 + (word_count : ℚ) / 500 * (15/100) + (sentence_count : ℚ) / 10 * (10/100)) (98/100)

/-- The fields of the dict returned by `grade_essay_with_database` that the
claims are about (`feedback`, `strengths`, `improvements` elided). -/
structure GradeResult where
  total_score : ℚ
  criteria_scores : List (Text × CriterionScore)
  confidence : ℚ
  word_count : ℕ
  sentence_count : ℕ
  readability_score : ℚ
  grade_level : ℚ
deriving DecidableEq

/-- The criterion loop of `grade_essay_with_database`: accumulates
`total_weighted_score`, `total_weight` and the `criteria_scores` entries,
skipping criteria whose processing raised. -/
def gradeStep (content : Text) (orc : GradeOracles)
    (acc : ℚ × ℚ × List (Text × CriterionScore)) (nc : Text × CriterionConfig) :
    ℚ × ℚ × List (Text × CriterionScore) :=
  match evalCriterion content orc nc.1 nc.2 with
  | none => acc
  | some s =>
    (acc.1 + s, acc.2.1 + nc.2.max_points,
     acc.2.2 ++ [(nc.1, ⟨pyRound 2 s, nc.2.max_points, pyRound 1 (s / nc.2.max_points * 100)⟩)])

def gradeFold (content : Text) (orc : GradeOracles)
    (rubric : List (Text × CriterionConfig)) : ℚ × ℚ × List (Text × CriterionScore) :=
  rubric.foldl (gradeStep content orc) (0, 0, [])

/-- `grade_essay_with_database` of `ai_grading.py`, as a pure function of
the resolved rubric (the database fetch that resolves the assignment's
rubric — and raises `ValueError` when the assignment is absent — happens
before this computation and is the caller's input here). -/
def grade_essay_with_database (content : Text) (rubric : List (Text × CriterionConfig))
    (orc : GradeOracles) : GradeResult :=
  let acc := gradeFold content orc rubric
  let final_score := if acc.2.1 > 0 then acc.1 / acc.2.1 * 100 else 0
  let word_count := count_words content
  let sentence_count := count_sentences content
  let readability : ℚ := match orc.stats with | some p => p.1 | none => 50
  let grade_level : ℚ := match orc.stats with | some p => p.2 | none => 8
  { total_score := pyRound 2 final_score
    criteria_scores := acc.2.2
    confidence := pyRound 4 (grading_confidence word_count sentence_count)
    word_count := word_count
    sentence_count := sentence_count
    readability_score := pyRound 2 readability
    grade_level := pyRound 1 grade_level }

/-! ## plagiarism.py -/

/-- A stored submission as the plagiarism loops read it
(`s["id"]`, `s["content"]`). -/
structure Submission where
  id : ℕ
  content : Text
deriving DecidableEq

/-- `calculate_similarity` of `plagiarism.py` lowercases both texts and asks
`difflib.SequenceMatcher(None, ·, ·).ratio()`; the ratio itself is an
external-library value, passed in as the oracle `seqr`. -/
def calculate_similarity (seqr : Text → Text → ℚ) (a b : Text) : ℚ :=
  seqr (lowerText a) (lowerText b)

/-- `get_ngrams` of `plagiarism.py`: the n-grams of the `\w+` tokens of the
lowercased text.  An n-gram is kept as the token tuple; the source joins the
tokens with single spaces, an injective encoding since tokens contain no
spaces. -/
def get_ngrams (t : Text) (n : ℕ) : List (List Text) :=
  let words := findWords (lowerText t)
  (List.range (words.length + 1 - n)).map (fun i => (words.drop i).take n)

/-- `calculate_jaccard_similarity` of `plagiarism.py`.  `set(...)` is
modelled by `List.dedup`. -/
def calculate_jaccard_similarity (a b : Text) : ℚ :=
  let words1 := (findWords (lowerText a)).dedup
  let words2 := (findWords (lowerText b)).dedup
  if words1.isEmpty || words2.isEmpty then 0
  else
    let intersection := (words1.filter (fun w => words2.contains w)).length
    let union := ((words1 ++ words2).dedup).length
    if union > 0 then (intersection : ℚ) / (union : ℚ) else 0

/-- `detect_paraphrasing` of `plagiarism.py` (threshold fixed at its default
`0.6`; no caller overrides it).  The `Counter` objects are only used through
their key sets, so `dedup` again models them. -/
def detect_paraphrasing (a b : Text) : Bool :=
  let ngrams1 := (get_ngrams a 3).dedup
  let ngrams2 := (get_ngrams b 3).dedup
  if ngrams1.isEmpty || ngrams2.isEmpty then false
  else
    let ngram_overlap :=
      ((ngrams1.filter (fun g => ngrams2.contains g)).length : ℚ) /
        (min ngrams1.length ngrams2.length : ℕ)
    let words1 := (findWords (lowerText a)).dedup
    let words2 := (findWords (lowerText b)).dedup
    let common_words := (words1.filter (fun w => words2.contains w)).length
    let frequency_similarity := (common_words : ℚ) / (max words1.length words2.length : ℕ)
    decide (ngram_overlap > 6/10) || decide (frequency_similarity > 6/10)

/-- A `matched_sources` entry.  The source appends formatted strings; the
constructor records which branch fired and the number it formats. -/
inductive MatchedSource where
  | prevSubmission (seqSim : ℚ)
  | paraphrase (conf : ℚ)
  | highSim (sim : ℚ)
deriving DecidableEq

/-- The dict returned by `check_plagiarism_with_database`.
`paraphrase_detected` is `Option Bool` because the short-content and error
default dicts (lines 55–62 and 184–191) lack that key. -/
structure PlagResult where
  similarity_score : ℚ
  is_suspicious : Bool
  suspicious_segments : List Text
  matched_sources : List MatchedSource
  paraphrase_detected : Option Bool
  confidence : ℚ
  analysis : Text
deriving DecidableEq

/-- The default dict returned for content shorter than 20 stripped
characters (lines 54–62). -/
def shortDefault : PlagResult :=
  { similarity_score := 0, is_suspicious := false, suspicious_segments := []
    matched_sources := [], paraphrase_detected := none, confidence := 0
    analysis := "Content too short for analysis".toList }

/-- The default dict returned by the top-level `except` handler
(lines 184–191); `e` is the exception message. -/
def errorDefault (e : Text) : PlagResult :=
  { similarity_score := 0, is_suspicious := false, suspicious_segments := []
    matched_sources := [], paraphrase_detected := none, confidence := 0
    analysis := "Error during analysis: ".toList ++ e }

/-- The cross-student `weighted_similarity` of line 97. -/
def crossWeighted (seqr : Text → Text → ℚ) (content other : Text) : ℚ :=
  let seq_similarity := calculate_similarity seqr content other * 100
  let jaccard_sim := calculate_jaccard_similarity content other * 100
  let is_paraphrase := detect_paraphrasing content other
  seq_similarity * (4/10) + jaccard_sim * (3/10) + (if is_paraphrase then seq_similarity * (3/10) else 0)

/-- State threaded through the two comparison loops:
`similarity_scores`, `matched_sources`, `paraphrase_detected`. -/
structure PlagAcc where
  scores : List ℚ
  matched : List MatchedSource
  para : Bool

/-- The self-plagiarism loop (lines 82–89). -/
def selfPass (seqr : Text → Text → ℚ) (content : Text) (submission_id : ℕ)
    (subs : List Submission) (acc : PlagAcc) : PlagAcc :=
  subs.foldl
    (fun a prev =>
      if prev.id ≠ submission_id then
        let seq_similarity := calculate_similarity seqr content prev.content * 100
        let jaccard_sim := calculate_jaccard_similarity content prev.content * 100
        if seq_similarity > 30 ∨ jaccard_sim > 25 then
          { a with scores := a.scores ++ [(seq_similarity + jaccard_sim) / 2]
                   matched := a.matched ++ [.prevSubmission seq_similarity] }
        else a
      else a)
    acc

/-- The cross-student loop (lines 92–106); `subs` is already filtered of the
current submission id (line 74). -/
def crossPass (seqr : Text → Text → ℚ) (content : Text)
    (subs : List Submission) (acc : PlagAcc) : PlagAcc :=
  subs.foldl
    (fun a other =>
      let is_paraphrase := detect_paraphrasing content other.content
      let weighted := crossWeighted seqr content other.content
      if weighted > 25 ∨ is_paraphrase then
        let a' := { a with scores := a.scores ++ [weighted] }
        if is_paraphrase then
          { a' with para := true, matched := a'.matched ++ [.paraphrase weighted] }
        else if weighted > 40 then
          { a' with matched := a'.matched ++ [.highSim weighted] }
        else a'
      else a)
    acc

/-- `check_plagiarism_with_database` of `plagiarism.py`.

The external effects inside the `try` block (the two database fetches and
the final report save) are summarised by `dbres`: `.ok (student_subs,
assignment_subs)` when they all succeed, `.error e` when any of them raises,
in which case the handler of lines 182–191 returns `errorDefault e`.
`seqr` is the `SequenceMatcher.ratio` oracle and `formalHits s` the number
of `formal_indicators` patterns matching sentence `s` (lines 109–123).

The return type `Except` is the Python return-or-raise channel; the
function never raises, so every branch is `.ok`. -/
def check_plagiarism_with_database (content : Text) (submission_id : ℕ)
    (dbres : Except Text (List Submission × List Submission))
    (seqr : Text → Text → ℚ) (formalHits : Text → ℕ) : Except Text PlagResult :=
  if (pyStrip content).length < 20 then .ok shortDefault
  else
    match dbres with
    | .error e => .ok (errorDefault e)
    | .ok (student_submissions, assignment_submissions) =>
      let assignment_submissions := assignment_submissions.filter (fun s => s.id ≠ submission_id)
      let acc := selfPass seqr content submission_id student_submissions ⟨[], [], false⟩
      let acc := crossPass seqr content assignment_submissions acc
      let sentences := (splitSents content).map pyStrip
      let pattern_based_segments :=
        (sentences.filter (fun s => ¬s.length < 50)).filter (fun s => formalHits s ≥ 2)
      let avg_similarity :=
        if acc.scores ≠ [] then acc.scores.sum / (acc.scores.length : ℚ)
        else
          let ngrams := get_ngrams content 4
          let unique_ngrams := ngrams.dedup.length
          let repetition_score := (1 - (unique_ngrams : ℚ) / (max ngrams.length 1 : ℕ)) * 30
          min repetition_score 15
      let is_suspicious :=
        decide (avg_similarity > 25) || decide (acc.matched.length > 0) || acc.para ||
          decide (pattern_based_segments.length > 5)
      let confidence := min (85/100 + (acc.matched.length : ℚ) * (5/100)) (99/100)
      let analysis_parts : List Text :=
        (if avg_similarity > 40 then ["High similarity detected with other submissions".toList] else []) ++
        (if acc.para then ["Potential paraphrasing detected".toList] else []) ++
        (if pattern_based_segments.length > 3 then
          ["Multiple segments show academic writing patterns".toList] else []) ++
        (if !is_suspicious then ["No significant plagiarism indicators detected".toList] else [])
      let analysis :=
        if analysis_parts.isEmpty then "Analysis complete".toList
        else List.intercalate ". ".toList analysis_parts
      .ok { similarity_score := pyRound 2 avg_similarity
            is_suspicious := is_suspicious
            suspicious_segments := pattern_based_segments.take 5
            matched_sources := acc.matched
            paraphrase_detected := some acc.para
            confidence := pyRound 4 confidence
            analysis := analysis }

/-! ## Helper lemmas -/

lemma round_mono_rat {a b : ℚ} (h : a ≤ b) : round a ≤ round b := by
  rw [round_eq, round_eq]
  exact Int.floor_le_floor (by linarith)

lemma pyRound_mono (d : ℕ) {a b : ℚ} (h : a ≤ b) : pyRound d a ≤ pyRound d b := by
  unfold pyRound
  have h10 : (0:ℚ) < 10 ^ d := by positivity
  apply (div_le_div_iff_of_pos_right h10).mpr
  exact_mod_cast round_mono_rat (by nlinarith)

lemma pyRound_intCast (d : ℕ) (n : ℤ) : pyRound d (n : ℚ) = n := by
  unfold pyRound
  have : ((n : ℚ)) * 10 ^ d = ((n * 10 ^ d : ℤ) : ℚ) := by push_cast; ring
  rw [this, round_intCast]
  have h10 : ((10:ℚ)) ^ d ≠ 0 := by positivity
  push_cast
  field_simp

lemma pyRound_le_of_le_int (d : ℕ) {q : ℚ} (n : ℤ) (h : q ≤ n) : pyRound d q ≤ n := by
  have := pyRound_mono d h
  rwa [pyRound_intCast] at this

lemma le_pyRound_of_int_le (d : ℕ) {q : ℚ} (n : ℤ) (h : (n : ℚ) ≤ q) : (n : ℚ) ≤ pyRound d q := by
  have := pyRound_mono d h
  rwa [pyRound_intCast] at this

lemma ite_nonneg_le {p : Prop} [Decidable p] {x : ℚ} (hx : 0 ≤ x) :
    0 ≤ (if p then x else 0) ∧ (if p then x else 0) ≤ x := by
  split <;> constructor <;> linarith

lemma length_score_isSome {w m : ℕ} (hm : 0 < m) : ∃ ls, length_score w m = some ls := by
  unfold length_score
  split_ifs with h1 h2 h3
  · exact ⟨_, rfl⟩
  · exact ⟨_, rfl⟩
  · omega
  · exact ⟨_, rfl⟩

lemma length_score_bounds {w m : ℕ} {ls : ℚ} (h : length_score w m = some ls) :
    0 ≤ ls ∧ ls ≤ 1 := by
  unfold length_score at h
  have hw : (0:ℚ) ≤ (w:ℚ) := Nat.cast_nonneg w
  have hmn : (0:ℚ) ≤ (m:ℚ) := Nat.cast_nonneg m
  split_ifs at h with h1 h2 h3
  · -- w < m, so 0 < m
    have hm : (0:ℚ) < (m:ℚ) := lt_of_le_of_lt hw h1
    have : (w:ℚ) / (m:ℚ) ≤ 1 := by
      rw [div_le_one hm]; linarith
    have h0 : (0:ℚ) ≤ (w:ℚ) / (m:ℚ) := by positivity
    cases h
    constructor <;> nlinarith
  · -- m ≤ w < 1.5 m, so 0 < m
    have hm : (0:ℚ) < (m:ℚ) := by
      by_contra hc
      push_neg at hc
      have : (m:ℚ) = 0 := le_antisymm hc hmn
      rw [this] at h2
      simp at h2
      linarith
    have hr0 : (0:ℚ) ≤ ((w:ℚ) - (m:ℚ)) / ((m:ℚ) * 0.5) := by
      apply div_nonneg (by push_neg at h1; linarith) (by linarith)
    have hr1 : ((w:ℚ) - (m:ℚ)) / ((m:ℚ) * 0.5) ≤ 1 := by
      rw [div_le_one (by linarith)]; linarith
    cases h
    constructor <;> nlinarith
  · -- 1.5 m ≤ w, m ≠ 0
    have hm : (0:ℚ) < (m:ℚ) := by
      have : 0 < m := Nat.pos_of_ne_zero h3
      exact_mod_cast this
    push_neg at h2
    have hmin0 : (0:ℚ) ≤ min (((w:ℚ) - (m:ℚ) * 1.5) / ((m:ℚ) * 2)) 0.2 :=
      le_min (div_nonneg (by linarith) (by linarith)) (by norm_num)
    have hmin2 : min (((w:ℚ) - (m:ℚ) * 1.5) / ((m:ℚ) * 2)) 0.2 ≤ 0.2 := min_le_right _ _
    cases h
    constructor <;> linarith

lemma readability_score_bounds (fl : Option ℚ) :
    0 ≤ readability_score fl ∧ readability_score fl ≤ 1 := by
  unfold readability_score
  match fl with
  | some r =>
    constructor
    · exact le_min (le_max_right _ _) (by norm_num)
    · exact min_le_right _ _
  | none => norm_num

lemma vocab_complexity_bounds (t : Text) :
    0 ≤ (analyze_vocabulary_complexity t).complexity_score ∧
    (analyze_vocabulary_complexity t).complexity_score ≤ 100 := by
  unfold analyze_vocabulary_complexity
  dsimp only
  split_ifs with hempty
  · norm_num
  · set words := findWords (lowerText t) with hwords
    have hn : 0 < words.length := by
      cases hw : words with
      | nil => rw [hw] at hempty; simp at hempty
      | cons a l => simp [hw]
    have hnq : (0:ℚ) < (words.length : ℚ) := by exact_mod_cast hn
    have hmax : (max words.length 1 : ℕ) = words.length := by omega
    have hlong : ((words.filter (fun w => w.length > 6)).length : ℚ) ≤ (words.length : ℚ) := by
      exact_mod_cast List.length_filter_le _ _
    have hlong0 : (0:ℚ) ≤ ((words.filter (fun w => w.length > 6)).length : ℚ) :=
      Nat.cast_nonneg _
    have hded : ((words.dedup.length : ℚ)) ≤ (words.length : ℚ) := by
      exact_mod_cast List.Sublist.length_le (List.dedup_sublist words)
    have hded0 : (0:ℚ) ≤ ((words.dedup.length : ℚ)) := Nat.cast_nonneg _
    have hacad : ((words.filter (fun w => ACADEMIC_VOCABULARY.contains w)).length : ℚ)
        ≤ (words.length : ℚ) := by
      exact_mod_cast List.length_filter_le _ _
    have hacad0 : (0:ℚ) ≤ ((words.filter (fun w => ACADEMIC_VOCABULARY.contains w)).length : ℚ) :=
      Nat.cast_nonneg _
    rw [hmax]
    have r1 : (0:ℚ) ≤ ((words.filter (fun w => w.length > 6)).length : ℚ) / (words.length : ℚ) ∧
        ((words.filter (fun w => w.length > 6)).length : ℚ) / (words.length : ℚ) ≤ 1 :=
      ⟨by positivity, by rw [div_le_one hnq]; exact hlong⟩
    have r2 : (0:ℚ) ≤ ((words.dedup.length : ℚ)) / (words.length : ℚ) ∧
        ((words.dedup.length : ℚ)) / (words.length : ℚ) ≤ 1 :=
      ⟨by positivity, by rw [div_le_one hnq]; exact hded⟩
    have r3 : (0:ℚ) ≤ ((words.filter (fun w => ACADEMIC_VOCABULARY.contains w)).length : ℚ)
          / (words.length : ℚ) ∧
        ((words.filter (fun w => ACADEMIC_VOCABULARY.contains w)).length : ℚ)
          / (words.length : ℚ) ≤ 1 :=
      ⟨by positivity, by rw [div_le_one hnq]; exact hacad⟩
    constructor
    · exact le_pyRound_of_int_le 2 0 (by push_cast; nlinarith [r1.1, r2.1, r3.1])
    · exact pyRound_le_of_le_int 2 100 (by push_cast; nlinarith [r1.2, r2.2, r3.2, r1.1, r2.1, r3.1])

lemma content_score_bounds {t : Text} {m : ℕ} {fl : Option ℚ} {r : ContentResult}
    (h : calculate_content_score t m fl = some r) : 0 ≤ r.score ∧ r.score ≤ 100 := by
  unfold calculate_content_score at h
  dsimp only at h
  cases hls : length_score (count_words t) m with
  | none => rw [hls] at h; cases h
  | some ls =>
    rw [hls] at h
    obtain ⟨hls0, hls1⟩ := length_score_bounds hls
    obtain ⟨hv0, hv1⟩ := vocab_complexity_bounds t
    obtain ⟨hr0, hr1⟩ := readability_score_bounds fl
    cases h
    dsimp only
    constructor <;> nlinarith

set_option maxHeartbeats 1600000 in
lemma grammar_raw_bounds (t : Text) (rw pv : ℕ) :
    15 ≤ grammar_raw_score t rw pv ∧ grammar_raw_score t rw pv ≤ 90 := by
  unfold grammar_raw_score
  dsimp only
  set S := ((splitSents t).map pyStrip).filter (fun s => !s.isEmpty) with hS
  have hmin1 : min ((rw:ℚ) * 5) 20 ≤ 20 := min_le_right _ _
  have hmin0 : (0:ℚ) ≤ min ((rw:ℚ) * 5) 20 :=
    le_min (by positivity) (by norm_num)
  constructor <;> (split_ifs <;> linarith)

lemma structure_score_bounds {t : Text} {s : ℚ}
    (h : calculate_structure_score t = .scored s) : 0 ≤ s ∧ s ≤ 100 := by
  unfold calculate_structure_score at h
  dsimp only at h
  split at h
  · exact (StructureResult.noConfusion h)
  · rw [StructureResult.scored.injEq] at h
    subst h
    refine ⟨?_, min_le_right _ _⟩
    apply le_min ?_ (by norm_num)
    split_ifs <;> norm_num

lemma pyRound_nonneg {q : ℚ} (d : ℕ) (h : 0 ≤ q) : 0 ≤ pyRound d q := by
  have := le_pyRound_of_int_le d 0 (by exact_mod_cast h)
  exact_mod_cast this

lemma pyRound_le_100 {q : ℚ} (d : ℕ) (h : q ≤ 100) : pyRound d q ≤ 100 := by
  have := pyRound_le_of_le_int d 100 (by exact_mod_cast h)
  exact_mod_cast this

lemma argument_score_bounds (t : Text) (ri ci : ℕ) :
    0 ≤ (analyze_argument_quality t ri ci).argument_score ∧
    (analyze_argument_quality t ri ci).argument_score ≤ 100 := by
  unfold analyze_argument_quality
  dsimp only
  constructor
  · apply pyRound_nonneg
    apply le_min ?_ (by norm_num)
    positivity
  · apply pyRound_le_100
    exact min_le_right _ _

lemma evalCriterion_bounds {content : Text} {orc : GradeOracles} {name : Text}
    {cfg : CriterionConfig} {s : ℚ} (h : evalCriterion content orc name cfg = some s)
    (hmp : 0 < cfg.max_points) : 0 ≤ s ∧ s ≤ cfg.max_points := by
  unfold evalCriterion at h
  dsimp only at h
  split at h
  · exact Option.noConfusion h
  · rename_i raw heq
    rw [if_neg (ne_of_gt hmp)] at h
    rw [Option.some.injEq] at h
    subst h
    have hb : 0 ≤ raw ∧ raw ≤ 100 := by
      split at heq
      · -- content scorer
        rw [Option.map_eq_some'] at heq
        obtain ⟨r, hr, hsc⟩ := heq
        exact hsc ▸ content_score_bounds hr
      · -- grammar scorer
        rw [Option.some.injEq] at heq
        rw [← heq]
        have hg := grammar_raw_bounds content orc.repeated_words orc.passive_indicators
        constructor
        · simp only [calculate_grammar_score]
          exact le_max_right _ _
        · simp only [calculate_grammar_score]
          exact max_le (by linarith [hg.2]) (by norm_num)
      · -- structure scorer
        cases hs : calculate_structure_score content with
        | empty a b c d e f =>
          rw [hs] at heq
          simp [StructureResult.score?] at heq
        | scored sc =>
          rw [hs] at heq
          simp only [StructureResult.score?, Option.some.injEq] at heq
          exact heq ▸ structure_score_bounds hs
      · -- argument scorer
        rw [Option.some.injEq] at heq
        exact heq ▸ argument_score_bounds content orc.reasoning_indicators orc.citations
    obtain ⟨h0, h100⟩ := hb
    constructor
    · positivity
    · have hd : raw / 100 ≤ 1 := by
        rw [div_le_one (show (0:ℚ) < 100 by norm_num)]
        exact h100
      nlinarith

lemma gradeFold_loop_bounds (content : Text) (orc : GradeOracles) :
    ∀ (rubric : List (Text × CriterionConfig)) (acc : ℚ × ℚ × List (Text × CriterionScore)),
      (∀ nc ∈ rubric, (0:ℚ) < nc.2.max_points) → 0 ≤ acc.1 → acc.1 ≤ acc.2.1 →
      0 ≤ (rubric.foldl (gradeStep content orc) acc).1 ∧
      (rubric.foldl (gradeStep content orc) acc).1 ≤ (rubric.foldl (gradeStep content orc) acc).2.1 := by
  intro rubric
  induction rubric with
  | nil => intro acc _ h0 h1; exact ⟨h0, h1⟩
  | cons nc rest ih =>
    intro acc hpos h0 h1
    rw [List.foldl_cons]
    have hnc : (0:ℚ) < nc.2.max_points := hpos nc (List.mem_cons_self nc rest)
    have hrest : ∀ x ∈ rest, (0:ℚ) < x.2.max_points :=
      fun x hx => hpos x (List.mem_cons_of_mem nc hx)
    apply ih _ hrest
    all_goals
      unfold gradeStep
      cases he : evalCriterion content orc nc.1 nc.2 with
      | none => simpa using (by assumption : _)
      | some s =>
        obtain ⟨hs0, hs1⟩ := evalCriterion_bounds he hnc
        dsimp only
        linarith

/-- When the rubric weight is positive, `total_score` before rounding is
`100 × total / weight`. -/
lemma grade_total_score_eq (content : Text) (rubric : List (Text × CriterionConfig))
    (orc : GradeOracles) :
    (grade_essay_with_database content rubric orc).total_score =
      pyRound 2 (if (gradeFold content orc rubric).2.1 > 0 then
        (gradeFold content orc rubric).1 / (gradeFold content orc rubric).2.1 * 100 else 0) := rfl

/-! ## Claim theorems -/

/-- C1: for every content text and every rubric whose criteria all have
`max_points > 0`, the grading operation's `total_score` lies between 0 and
100 inclusive; it is 0 when no criterion produced a score
(`total_score` is `100 × total_weighted_score / total_weight` over the
contributing criteria, rounded to two decimals). -/
theorem C1_total_score_in_range (content : Text) (rubric : List (Text × CriterionConfig))
    (orc : GradeOracles) (h : ∀ nc ∈ rubric, (0:ℚ) < nc.2.max_points) :
    (0 ≤ (grade_essay_with_database content rubric orc).total_score ∧
      (grade_essay_with_database content rubric orc).total_score ≤ 100) ∧
    ((∀ nc ∈ rubric, evalCriterion content orc nc.1 nc.2 = none) →
      (grade_essay_with_database content rubric orc).total_score = 0) := by
  constructor
  · rw [grade_total_score_eq]
    obtain ⟨ht0, htw⟩ := gradeFold_loop_bounds content orc rubric (0, 0, [])
      h (le_refl 0) (le_refl 0)
    constructor
    · apply pyRound_nonneg
      split_ifs with hw
      · positivity
      · exact le_refl 0
    · apply pyRound_le_100
      split_ifs with hw
      · have hdiv : (gradeFold content orc rubric).1 / (gradeFold content orc rubric).2.1 ≤ 1 := by
          rw [div_le_one hw]
          exact htw
        nlinarith
      · norm_num
  · intro hall
    rw [grade_total_score_eq]
    have hfold : gradeFold content orc rubric = (0, 0, []) := by
      unfold gradeFold
      induction rubric with
      | nil => rfl
      | cons nc rest ih =>
        rw [List.foldl_cons]
        have hnone := hall nc (List.mem_cons_self nc rest)
        have : gradeStep content orc (0, 0, []) nc = (0, 0, []) := by
          unfold gradeStep
          rw [hnone]
        rw [this]
        exact ih (fun x hx => h x (List.mem_cons_of_mem nc hx))
          (fun x hx => hall x (List.mem_cons_of_mem nc hx))
    rw [hfold]
    norm_num [pyRound]

/-- C1 witness: a concrete rubric with positive `max_points` on a concrete
essay. -/
theorem C1_total_score_in_range_witness :
    (∀ nc ∈ [(("content".toList : Text), CriterionConfig.mk 20 100),
      (("grammar".toList : Text), CriterionConfig.mk 30 100)], (0:ℚ) < nc.2.max_points) ∧
    (0 ≤ (grade_essay_with_database "abcdef ghij klm".toList
        [("content".toList, ⟨20, 100⟩), ("grammar".toList, ⟨30, 100⟩)]
        ⟨none, none, 0, 0, 0, 0⟩).total_score ∧
      (grade_essay_with_database "abcdef ghij klm".toList
        [("content".toList, ⟨20, 100⟩), ("grammar".toList, ⟨30, 100⟩)]
        ⟨none, none, 0, 0, 0, 0⟩).total_score ≤ 100) :=
  ⟨by decide, (C1_total_score_in_range "abcdef ghij klm".toList
    [("content".toList, ⟨20, 100⟩), ("grammar".toList, ⟨30, 100⟩)]
    ⟨none, none, 0, 0, 0, 0⟩ (by decide)).1⟩

/-- C10: for every input text (and any values of the two regex-count
oracles), the grammar score lies in `[15, 90]`: the raw score before the
`max(score, 0)` clamp is already at least 15 — the seven deductions sum to
at most 75 — so the clamp-to-zero branch never changes the value. -/
theorem C10_grammar_score_range (t : Text) (rw pv : ℕ) :
    15 ≤ grammar_raw_score t rw pv ∧ grammar_raw_score t rw pv ≤ 90 ∧
    calculate_grammar_score t rw pv = ⟨grammar_raw_score t rw pv⟩ := by
  obtain ⟨h1, h2⟩ := grammar_raw_bounds t rw pv
  refine ⟨h1, h2, ?_⟩
  unfold calculate_grammar_score
  rw [GrammarResult.mk.injEq]
  exact max_eq_left (by linarith)

/-- Modelled from the spec: the length-score formula as §4.2 states it
(`(w/m)×0.5`; `0.5 + ((w−m)/(0.5m))×0.3`; `0.8 + min((w−1.5m)/(2m), 0.2)`). -/
def length_score_spec (w m : ℕ) : ℚ :=
  if (w:ℚ) < (m:ℚ) then (w:ℚ) / (m:ℚ) * 0.5
  else if (w:ℚ) < 1.5 * (m:ℚ) then 0.5 + ((w:ℚ) - (m:ℚ)) / (0.5 * (m:ℚ)) * 0.3
  else 0.8 + min (((w:ℚ) - 1.5 * (m:ℚ)) / (2 * (m:ℚ))) 0.2

/-- C6: for every word count `w` and positive criterion minimum `m`, the
content scorer's `length_score` equals the claimed piecewise formula, and
whenever `w < m` it is strictly below `0.5`. -/
theorem C6_length_score_formula (w m : ℕ) (hm : 0 < m) :
    length_score w m = some (length_score_spec w m) ∧
    (w < m → length_score_spec w m < 0.5) := by
  have hmq : (0:ℚ) < (m:ℚ) := by exact_mod_cast hm
  constructor
  · unfold length_score length_score_spec
    rcases lt_or_ge (w:ℚ) (m:ℚ) with hlt | hge
    · rw [if_pos hlt, if_pos hlt, Option.some.injEq, show (0.5 : ℚ) = 5/10 by norm_num]
    · rw [if_neg (not_lt.mpr hge), if_neg (not_lt.mpr hge)]
      rcases lt_or_ge (w:ℚ) ((m:ℚ) * (15/10)) with hlt2 | hge2
      · rw [if_pos hlt2, if_pos (show (w:ℚ) < 1.5 * (m:ℚ) by
          rw [show (1.5 : ℚ) = 15/10 by norm_num]; linarith)]
        rw [Option.some.injEq]
        rw [show (0.5 : ℚ) = 5/10 by norm_num, show (0.3 : ℚ) = 3/10 by norm_num]
        ring
      · rw [if_neg (not_lt.mpr hge2),
          if_neg (not_lt.mpr (show 1.5 * (m:ℚ) ≤ (w:ℚ) by
            rw [show (1.5 : ℚ) = 15/10 by norm_num]; linarith)),
          if_neg (Nat.pos_iff_ne_zero.mp hm)]
        rw [Option.some.injEq]
        rw [show (0.8 : ℚ) = 8/10 by norm_num, show (1.5 : ℚ) = 15/10 by norm_num,
          show (0.2 : ℚ) = 2/10 by norm_num]
        have hd : ((w:ℚ) - (m:ℚ) * (15/10)) / ((m:ℚ) * 2) =
            ((w:ℚ) - 15/10 * (m:ℚ)) / (2 * (m:ℚ)) := by
          ring
        rw [hd]
  · intro hw
    have hwq : (w:ℚ) < (m:ℚ) := by exact_mod_cast hw
    unfold length_score_spec
    rw [if_pos hwq]
    have : (w:ℚ) / (m:ℚ) < 1 := by
      rw [div_lt_one hmq]
      exact hwq
    nlinarith

/-- C6 witness: `w = 50`, `m = 100`. -/
theorem C6_length_score_formula_witness :
    0 < 100 ∧ (length_score 50 100 = some (length_score_spec 50 100) ∧
      (50 < 100 → length_score_spec 50 100 < 0.5)) :=
  ⟨by norm_num, C6_length_score_formula 50 100 (by norm_num)⟩

/-- C9: for every content, the grading confidence is
`min(0.70 + (word_count/500)×0.15 + (sentence_count/10)×0.10, 0.98)`
(the result stores it rounded to 4 decimals), and it is monotone
non-decreasing in both word count and sentence count. -/
theorem C9_confidence_monotone (content : Text) (rubric : List (Text × CriterionConfig))
    (orc : GradeOracles) (wc' sc' : ℕ)
    (h1 : count_words content ≤ wc') (h2 : count_sentences content ≤ sc') :
    (grade_essay_with_database content rubric orc).confidence
        = pyRound 4 (min (0.70 + (count_words content : ℚ) / 500 * 0.15 +
            (count_sentences content : ℚ) / 10 * 0.10) 0.98) ∧
    grading_confidence (count_words content) (count_sentences content) ≤
      grading_confidence wc' sc' ∧
    (grade_essay_with_database content rubric orc).confidence ≤
      pyRound 4 (grading_confidence wc' sc') := by
  have hmono : grading_confidence (count_words content) (count_sentences content) ≤
      grading_confidence wc' sc' := by
    unfold grading_confidence
    apply min_le_min ?_ (le_refl _)
    have c1 : (count_words content : ℚ) ≤ (wc' : ℚ) := by exact_mod_cast h1
    have c2 : (count_sentences content : ℚ) ≤ (sc' : ℚ) := by exact_mod_cast h2
    nlinarith
  refine ⟨rfl, hmono, ?_⟩
  exact pyRound_mono 4 hmono

/-- C9 witness: word/sentence counts of a concrete essay against larger
counts. -/
theorem C9_confidence_monotone_witness :
    count_words "One two three. Four five six seven.".toList ≤ 50 ∧
    count_sentences "One two three. Four five six seven.".toList ≤ 9 ∧
    (grade_essay_with_database "One two three. Four five six seven.".toList []
        ⟨none, none, 0, 0, 0, 0⟩).confidence ≤ pyRound 4 (grading_confidence 50 9) :=
  ⟨by decide, by decide,
    (C9_confidence_monotone "One two three. Four five six seven.".toList []
      ⟨none, none, 0, 0, 0, 0⟩ 50 9 (by decide) (by decide)).2.2⟩

/-- Modelled from the spec: the ordered dispatch table of §4.2, first match
wins, generic default `content`. -/
def scorerTable : List (List Text × ScorerKind) :=
  [(["content".toList, "thesis".toList], .content),
   (["grammar".toList, "style".toList, "language".toList], .grammar),
   (["structure".toList, "organization".toList], .struct),
   (["argument".toList, "analysis".toList, "critical".toList], .argument)]

/-- Modelled from the spec: scan the table in order and return the first
category one of whose keywords occurs in the (lowercased) name. -/
def firstMatchScorer : List (List Text × ScorerKind) → Text → ScorerKind
  | [], _ => .content
  | (kws, k) :: rest, l =>
    if kws.any (fun kw => containsSub l kw) then k else firstMatchScorer rest l

/-- Modelled from the spec: dispatch by case-insensitive substring match in
the exact priority order of §4.2. -/
def selectScorerSpec (name : Text) : ScorerKind :=
  firstMatchScorer scorerTable (lowerText name)

/-- C5: for every criterion name the scorer dispatch of
`grade_essay_with_database` agrees with the spec's ordered first-match
table, and in particular a name containing `content` always gets content
scoring, never a later category. -/
theorem C5_dispatch_priority (name : Text) :
    selectScorer name = selectScorerSpec name ∧
    (containsSub (lowerText name) "content".toList = true → selectScorer name = .content) := by
  constructor
  · simp only [selectScorer, selectScorerSpec, scorerTable, firstMatchScorer,
      List.any_cons, List.any_nil, Bool.or_false, Bool.or_assoc]
  · intro h
    unfold selectScorer
    dsimp only
    rw [h]
    simp

/-- C5 witness: a name containing both `structure` and `content`
dispatches to content scoring. -/
theorem C5_dispatch_priority_witness :
    containsSub (lowerText "Structure and Content".toList) "content".toList = true ∧
    selectScorer "Structure and Content".toList = .content :=
  ⟨by decide, (C5_dispatch_priority "Structure and Content".toList).2 (by decide)⟩

/-- C8 counterexample: when the Flesch computation fails, the content
scorer's readability component is the constant `0.5` assigned in the
`except` branch, not `clamp((50 − 30)/70, 0, 1) = 2/7` as the claim
states. -/
theorem C8_counterexample :
    readability_score none = 1/2 ∧
    min (max (((50:ℚ) - 30) / 70) 0) 1 = 2/7 ∧
    ¬ readability_score none = 2/7 ∧
    (calculate_content_score "The quick brown fox jumps over the lazy dog.".toList 100
      none).map ContentResult.readability = some (1/2) := by
  refine ⟨rfl, by norm_num, by norm_num [readability_score], by decide⟩

/-- C8 amended: when the Flesch computation fails, the content scorer
substitutes `readability_score = 0.5` directly (never propagating the
error); the `ease = 50` / `grade = 8` fallback constants belong to the
separate whole-essay statistics block of `grade_essay_with_database`. -/
theorem C8_fallback_readability (t : Text) (m : ℕ) (hm : 0 < m) :
    (∃ r, calculate_content_score t m none = some r ∧ r.readability = 1/2) ∧
    (∀ (content : Text) (rubric : List (Text × CriterionConfig)) (orc : GradeOracles),
      orc.stats = none →
      (grade_essay_with_database content rubric orc).readability_score = 50 ∧
      (grade_essay_with_database content rubric orc).grade_level = 8) := by
  constructor
  · obtain ⟨ls, hls⟩ := length_score_isSome (w := count_words t) hm
    refine ⟨⟨(ls * (4/10) + (analyze_vocabulary_complexity t).complexity_score / 100 * (4/10) +
        readability_score none * (2/10)) * 100, count_words t, readability_score none⟩, ?_, rfl⟩
    unfold calculate_content_score
    dsimp only
    rw [hls]
  · intro content rubric orc hstats
    unfold grade_essay_with_database
    dsimp only
    rw [hstats]
    constructor
    · show pyRound 2 (50:ℚ) = 50
      have := pyRound_intCast 2 50
      push_cast at this
      exact this
    · show pyRound 1 (8:ℚ) = 8
      have := pyRound_intCast 1 8
      push_cast at this
      exact this

/-- C8 witness: concrete text and minimum. -/
theorem C8_fallback_readability_witness :
    0 < 100 ∧
    (∃ r, calculate_content_score "Some short essay text.".toList 100 none = some r ∧
      r.readability = 1/2) :=
  ⟨by norm_num, (C8_fallback_readability "Some short essay text.".toList 100 (by norm_num)).1⟩

/-- C3 counterexample: `"abcdef ghij klm"` has 15 characters (fewer than 20
after stripping), yet `grade_essay_with_database` has no short-content
guard: it grades the text normally and returns `total_score = 26.6`, not
the zero-score InvalidInput default the claim asserts for the grading
operation. -/
theorem C3_counterexample :
    ("abcdef ghij klm".toList : Text).length = 15 ∧
    (pyStrip "abcdef ghij klm".toList).length < 20 ∧
    (grade_essay_with_database "abcdef ghij klm".toList
      [("content".toList, ⟨20, 100⟩)] ⟨none, none, 0, 0, 0, 0⟩).total_score = 133/5 ∧
    ¬ (grade_essay_with_database "abcdef ghij klm".toList
      [("content".toList, ⟨20, 100⟩)] ⟨none, none, 0, 0, 0, 0⟩).total_score = 0 := by
  refine ⟨by decide, by decide, by decide, by decide⟩

/-- C3 amended: only the plagiarism operation short-circuits on content
shorter than 20 stripped characters, returning the zero/low-confidence
`"Content too short for analysis"` default without raising; the grading
operation has no such guard (it computes a normal, typically low, score). -/
theorem C3_short_content_default (content : Text) (sid : ℕ)
    (dbres : Except Text (List Submission × List Submission))
    (seqr : Text → Text → ℚ) (fh : Text → ℕ)
    (h : (pyStrip content).length < 20) :
    check_plagiarism_with_database content sid dbres seqr fh = .ok shortDefault ∧
    shortDefault.similarity_score = 0 ∧ shortDefault.confidence = 0 ∧
    shortDefault.is_suspicious = false ∧
    shortDefault.analysis = "Content too short for analysis".toList := by
  refine ⟨?_, rfl, rfl, rfl, rfl⟩
  unfold check_plagiarism_with_database
  rw [if_pos h]

/-- C3 witness: a 2-character content. -/
theorem C3_short_content_default_witness :
    (pyStrip "hi".toList).length < 20 ∧
    check_plagiarism_with_database "hi".toList 1 (.ok ([], []))
      (fun _ _ => 0) (fun _ => 0) = .ok shortDefault :=
  ⟨by decide, (C3_short_content_default "hi".toList 1 (.ok ([], []))
    (fun _ _ => 0) (fun _ => 0) (by decide)).1⟩

/-- C4 counterexample: on `"..."` (no sentences) structure scoring returns
the zero/false record, but that record carries **no** score; in the
aggregation the structure criterion is skipped entirely — its 20 points are
excluded from the denominator — so the two-criterion grade is 70, not the
42 that consuming a zero structure score would give. -/
theorem C4_counterexample :
    calculate_structure_score "...".toList = .empty 0 0 0 false false 0 ∧
    (calculate_structure_score "...".toList).score? = none ∧
    evalCriterion "...".toList ⟨none, none, 0, 0, 0, 0⟩ "structure".toList ⟨20, 100⟩ = none ∧
    (grade_essay_with_database "...".toList
      [("structure".toList, ⟨20, 100⟩), ("grammar".toList, ⟨30, 100⟩)]
      ⟨none, none, 0, 0, 0, 0⟩).total_score = 70 ∧
    (0 + (calculate_grammar_score "...".toList 0 0).score / 100 * 30) / (20 + 30) * 100
      = 42 := by
  refine ⟨by decide, by decide, by decide, by decide, by decide⟩

/-- C4 amended: for text with no (non-blank) paragraphs or no sentences,
structure scoring returns the explicit zero/false record without raising,
but the record has no `score` key; reading it raises `KeyError`, which the
per-criterion handler absorbs, so the criterion is skipped (excluded from
the weight denominator) rather than contributing a zero score. -/
theorem C4_structure_empty_result (t : Text)
    (h : ((splitParas t).filter (fun p => !(pyStrip p).isEmpty)).isEmpty = true ∨
      (((splitSents t).map pyStrip).filter (fun s => !s.isEmpty)).isEmpty = true) :
    calculate_structure_score t = .empty 0 0 0 false false 0 ∧
    (calculate_structure_score t).score? = none ∧
    (∀ (orc : GradeOracles) (cfg : CriterionConfig),
      evalCriterion t orc "structure".toList cfg = none) := by
  have hmain : calculate_structure_score t = .empty 0 0 0 false false 0 := by
    unfold calculate_structure_score
    dsimp only
    rw [if_pos (by
      rcases h with h | h
      · exact Bool.or_eq_true _ _ |>.mpr (Or.inl h)
      · exact Bool.or_eq_true _ _ |>.mpr (Or.inr h))]
  refine ⟨hmain, by rw [hmain]; rfl, ?_⟩
  intro orc cfg
  unfold evalCriterion
  dsimp only
  rw [show selectScorer "structure".toList = .struct from by decide]
  dsimp only
  rw [hmain]
  rfl

/-- C4 witness: `"..."` has no sentences. -/
theorem C4_structure_empty_result_witness :
    ((((splitSents "...".toList).map pyStrip).filter (fun s => !s.isEmpty)).isEmpty = true) ∧
    calculate_structure_score "...".toList = .empty 0 0 0 false false 0 :=
  ⟨by decide, (C4_structure_empty_result "...".toList (Or.inr (by decide))).1⟩

lemma plag_confidence_lower (k : ℕ) :
    (85/100 : ℚ) ≤ pyRound 4 (min (85/100 + (k:ℚ) * (5/100)) (99/100)) := by
  have hq : (85/100 : ℚ) ≤ min (85/100 + (k:ℚ) * (5/100)) (99/100) := by
    apply le_min ?_ (by norm_num)
    have : (0:ℚ) ≤ (k:ℚ) * (5/100) := by positivity
    linarith
  calc (85/100 : ℚ) = pyRound 4 (85/100) := by decide
  _ ≤ pyRound 4 (min (85/100 + (k:ℚ) * (5/100)) (99/100)) := pyRound_mono 4 hq

/-- C2 counterexample: an unhandled error (here: the database raising
`"database connection failed"`) is *not* reported as a failed operation —
the call returns success (`.ok`) with a zero-similarity default record
(`is_suspicious = false`, `similarity_score = 0`), exactly the silent
partial-result shape the claim forbids. -/
theorem C2_counterexample :
    check_plagiarism_with_database "this is long enough content for analysis".toList 1
      (.error "database connection failed".toList) (fun _ _ => 0) (fun _ => 0)
      = .ok (errorDefault "database connection failed".toList) ∧
    (errorDefault "database connection failed".toList).is_suspicious = false ∧
    (errorDefault "database connection failed".toList).similarity_score = 0 ∧
    (errorDefault "database connection failed".toList).confidence = 0 := by
  exact ⟨rfl, rfl, rfl, rfl⟩

/-- C2 amended: an unhandled error during a plagiarism check is caught and
absorbed: the call returns *success* carrying a fixed zero-similarity
default whose `analysis` is `"Error during analysis: "` plus the message
and whose confidence is 0 — distinguishable from the short-content default
(different analysis text) and from every normal-path result (whose
confidence is at least 0.85), but never surfaced as a failed operation. -/
theorem C2_error_absorbed (content : Text) (sid : ℕ) (e : Text)
    (seqr : Text → Text → ℚ) (fh : Text → ℕ)
    (h : ¬ (pyStrip content).length < 20) :
    check_plagiarism_with_database content sid (.error e) seqr fh = .ok (errorDefault e) ∧
    (errorDefault e).confidence = 0 ∧
    (errorDefault e).analysis ≠ shortDefault.analysis ∧
    (∀ (subs : List Submission × List Submission) (r : PlagResult),
      check_plagiarism_with_database content sid (.ok subs) seqr fh = .ok r →
      (85/100 : ℚ) ≤ r.confidence) := by
  refine ⟨?_, rfl, ?_, ?_⟩
  · unfold check_plagiarism_with_database
    rw [if_neg h]
  · intro heq
    have h1 : (some 'E' : Option Char) = some 'C' := by
      calc (some 'E' : Option Char) = ((errorDefault e).analysis).head? := rfl
      _ = shortDefault.analysis.head? := by rw [heq]
      _ = some 'C' := rfl
    simp at h1
  · intro subs r hok
    obtain ⟨ss, as⟩ := subs
    unfold check_plagiarism_with_database at hok
    rw [if_neg h] at hok
    dsimp only at hok
    rw [Except.ok.injEq] at hok
    rw [← hok]
    exact plag_confidence_lower _

/-- C2 witness: concrete long content and error message. -/
theorem C2_error_absorbed_witness :
    ¬ (pyStrip "a perfectly ordinary essay text body".toList).length < 20 ∧
    check_plagiarism_with_database "a perfectly ordinary essay text body".toList 7
      (.error "boom".toList) (fun _ _ => 0) (fun _ => 0) = .ok (errorDefault "boom".toList) :=
  ⟨by decide, (C2_error_absorbed "a perfectly ordinary essay text body".toList 7 "boom".toList
    (fun _ _ => 0) (fun _ => 0) (by decide)).1⟩

lemma filter_contains_self {α : Type} [BEq α] [LawfulBEq α] (l : List α) :
    l.filter (fun x => l.contains x) = l := by
  apply List.filter_eq_self.mpr
  intro a ha
  simpa using ha

lemma dedup_append_self_length {α : Type} [DecidableEq α] (l : List α) :
    ((l.dedup ++ l.dedup).dedup).length = l.dedup.length := by
  have h1 : ((l.dedup ++ l.dedup).dedup).length = (l.dedup ++ l.dedup).toFinset.card :=
    (List.card_toFinset _).symm
  have h2 : (l.dedup ++ l.dedup).toFinset = l.dedup.toFinset := by
    rw [List.toFinset_append, Finset.union_self]
  have h3 : l.dedup.toFinset.card = l.dedup.dedup.length := List.card_toFinset _
  rw [h1, h2, h3, List.dedup_idem]

/-- On identical texts with at least one word token, Jaccard similarity
is exactly 1. -/
lemma jaccard_self {t : Text} (hw : findWords (lowerText t) ≠ []) :
    calculate_jaccard_similarity t t = 1 := by
  unfold calculate_jaccard_similarity
  dsimp only
  have hne : ((findWords (lowerText t)).dedup).isEmpty = false := by
    cases hd : (findWords (lowerText t)).dedup with
    | nil => exact absurd ((List.dedup_eq_nil _).mp hd) hw
    | cons a l => rfl
  rw [hne, if_neg (by simp)]
  rw [filter_contains_self, dedup_append_self_length]
  have hlen : 0 < (findWords (lowerText t)).dedup.length := by
    cases hd : (findWords (lowerText t)).dedup with
    | nil => exact absurd ((List.dedup_eq_nil _).mp hd) hw
    | cons a l => simp
  rw [if_pos hlen]
  exact div_self (Nat.cast_ne_zero.mpr (Nat.pos_iff_ne_zero.mp hlen))

/-- On identical texts with at least one word token and a sequence-ratio
oracle giving 1 on the (lowercased) pair — which `difflib` does for equal
strings — the cross-student weighted similarity is `70` plus `30` more when
the paraphrase heuristic fires. -/
lemma crossWeighted_self {t : Text} (seqr : Text → Text → ℚ)
    (hw : findWords (lowerText t) ≠ []) (hseq : seqr (lowerText t) (lowerText t) = 1) :
    crossWeighted seqr t t = 70 + (if detect_paraphrasing t t then 30 else 0) := by
  unfold crossWeighted calculate_similarity
  dsimp only
  rw [hseq, jaccard_self hw]
  split_ifs <;> norm_num

/-- C7 counterexample: two identical *non-empty* bodies made of 24 `!`
characters (so not short-circuited by the length guard, but containing no
word token).  The sequence ratio of the identical pair is 1, Jaccard is 0
(empty word sets), paraphrase is false (no 3-grams), so the weighted
similarity is exactly 40: the pair is flagged (`40 > 25` makes
`is_suspicious = true`) but `matched_sources` is empty and the weighted
similarity is *not* `> 40`, contradicting the claim's conclusion. -/
theorem C7_counterexample :
    check_plagiarism_with_database "!!!!!!!!!!!!!!!!!!!!!!!!".toList 1
      (.ok ([], [⟨2, "!!!!!!!!!!!!!!!!!!!!!!!!".toList⟩])) (fun _ _ => 1) (fun _ => 0)
      = .ok ⟨40, true, [], [], some false, 85/100, "Analysis complete".toList⟩ ∧
    crossWeighted (fun _ _ => 1) "!!!!!!!!!!!!!!!!!!!!!!!!".toList
      "!!!!!!!!!!!!!!!!!!!!!!!!".toList = 40 ∧
    ¬ (40:ℚ) > 40 := by
  refine ⟨by rfl, by decide, by norm_num⟩

/-- C7 amended: for two submissions with identical text bodies of at least
20 stripped characters and containing at least one word token, from
different students (the compared submission id differs from the current
one), the cross-student pass yields `is_suspicious = true`, a non-empty
`matched_sources`, and a weighted similarity strictly above 40 — the
weighted formula and thresholds being exactly those of the claim. -/
theorem C7_identical_text_flagged (t : Text) (sid oid : ℕ)
    (seqr : Text → Text → ℚ) (fh : Text → ℕ)
    (hlen : ¬ (pyStrip t).length < 20)
    (hw : findWords (lowerText t) ≠ [])
    (hseq : seqr (lowerText t) (lowerText t) = 1)
    (hid : oid ≠ sid) :
    crossWeighted seqr t t > 40 ∧
    ∃ r, check_plagiarism_with_database t sid (.ok ([], [⟨oid, t⟩])) seqr fh = .ok r ∧
      r.is_suspicious = true ∧ r.matched_sources ≠ [] := by
  have hcw := crossWeighted_self seqr hw hseq
  have hw40 : crossWeighted seqr t t > 40 := by
    rw [hcw]; split_ifs <;> norm_num
  have hw25 : crossWeighted seqr t t > 25 := by linarith
  refine ⟨hw40, ?_⟩
  have hcp : crossPass seqr t [⟨oid, t⟩] ⟨[], [], false⟩ =
      if detect_paraphrasing t t then
        ⟨[crossWeighted seqr t t], [.paraphrase (crossWeighted seqr t t)], true⟩
      else ⟨[crossWeighted seqr t t], [.highSim (crossWeighted seqr t t)], false⟩ := by
    unfold crossPass
    rw [List.foldl_cons, List.foldl_nil]
    dsimp only
    rw [if_pos (Or.inl hw25)]
    by_cases hb : detect_paraphrasing t t
    · rw [if_pos hb, if_pos hb]; rfl
    · rw [if_neg hb, if_neg hb, if_pos hw40]; rfl
  unfold check_plagiarism_with_database
  rw [if_neg hlen]
  dsimp only
  rw [show (([⟨oid, t⟩] : List Submission).filter (fun s => s.id ≠ sid)) = [⟨oid, t⟩]
    from by simp [hid]]
  rw [show selfPass seqr t sid [] ⟨[], [], false⟩ = ⟨[], [], false⟩ from rfl]
  rw [hcp]
  by_cases hb : detect_paraphrasing t t
  · rw [if_pos hb]
    refine ⟨_, rfl, ?_, ?_⟩ <;> simp
  · rw [if_neg hb]
    refine ⟨_, rfl, ?_, ?_⟩ <;> simp

/-- C7 witness: a concrete six-word essay compared with itself under a
different student's submission id. -/
theorem C7_identical_text_flagged_witness :
    (¬ (pyStrip "hello world this is my essay".toList).length < 20) ∧
    crossWeighted (fun _ _ => 1) "hello world this is my essay".toList
      "hello world this is my essay".toList > 40 :=
  ⟨by decide, (C7_identical_text_flagged "hello world this is my essay".toList 1 2
    (fun _ _ => 1) (fun _ => 0) (by decide) (by decide) rfl (by decide)).1⟩

end CheckMate
